import Mathlib

/-!
# Flexpilot completion model providers — shallow embedding

This file embeds the three completion model providers of the repository
(`src/providers/llamacpp.ts`, `src/providers/deepseek.ts`,
`src/providers/ollama.ts`) as pure Lean functions and proves properties of
them.

Modelling conventions:

* Network-using operations take the backend as an explicit oracle
  (a function from the request body the adapter builds to an HTTP response)
  and return, besides their result, the list of requests that actually
  reached the backend.  This makes "issues exactly one POST" and
  "performs no network request" provable statements.
* JavaScript `undefined` for an optional field is `Option.none`; the
  `a ?? b` operator is `Option.getD`; the JS truthiness test `a || b` on
  strings/numbers is modelled explicitly where the source uses it.
* The transport is modelled after the WHATWG fetch contract used by the
  source: a request whose `AbortSignal` is already aborted is rejected with
  an abort (cancellation) error and never reaches the backend; otherwise
  the backend's response is returned.
* Interactive prompts (`showInputBox`, `showQuickPick`) are inputs of a
  configuration environment record; `undefined` (user cancel) is `none`.
* Thrown JS `Error`s are `Except.error` values carrying the same message
  strings the source builds.
-/

/-- A caller-supplied cancellation signal (JS `AbortSignal`): the only
observable state the adapters consult is whether it is already aborted. -/
structure AbortSignal where
  aborted : Bool
  deriving Repr, DecidableEq

/-- The fill-in-middle messages of an invocation request.  Source fields
`prefix`/`suffix` (renamed: `prefix` is a Lean keyword); both may be absent. -/
structure FimMessages where
  prefixStr : Option String
  suffixStr : Option String
  deriving Repr, DecidableEq

/-- `ICompletionModelInvokeOptions`: the uniform invocation request.
`temperature` is only forwarded verbatim by the DeepSeek adapter. -/
structure ICompletionModelInvokeOptions where
  messages : Option FimMessages
  maxTokens : Option Nat
  stop : Option (List String)
  temperature : Option Rat
  signal : AbortSignal
  deriving Repr, DecidableEq

/-- An HTTP response as the adapters observe it: status code, status text,
raw body text (used on error paths via `response.text()`), and the parsed
JSON body `body` (used on success paths via `response.json()`). -/
structure HttpResponse (α : Type) where
  status : Nat
  statusText : String
  bodyText : String
  body : α
  deriving Repr, DecidableEq

/-- WHATWG `Response.ok`: status in the inclusive range 200–299. -/
def HttpResponse.ok (r : HttpResponse α) : Bool :=
  decide (200 ≤ r.status) && decide (r.status ≤ 299)

/-- A tokenizer handle from `@flexpilot-ai/tokenizers`: a local text↔token
codec.  `encodeFn text addSpecial` and `decodeFn tokens skipSpecial` model
the library's `encode`/`decode` methods. -/
structure Tokenizer where
  encodeFn : String → Bool → List Int
  decodeFn : List Int → Bool → String

/-- The Tokenizer Cache (`Tokenizers.get`): resolves a model id to its
(process-wide, memoized) tokenizer handle. -/
def TokenizerCache : Type := String → Tokenizer

/-- Errors surfaced by `invoke`/`encode`/`decode`. -/
inductive InvokeError
  /-- a thrown `new Error(message)` after a non-2xx backend response -/
  | backendError (message : String)
  /-- the transport's abort error when the cancellation signal fired -/
  | cancelled
  /-- a JS `TypeError` from destructuring an absent `messages` object -/
  | typeError
  deriving Repr, DecidableEq

/-- Errors surfaced by a provider's `configure` routine. -/
inductive ConfigureError
  | userCancelled (message : String)
  | backendError (message : String)
  | noModelsFound (message : String)
  | metadataNotFound (message : String)
  deriving Repr, DecidableEq

/-- The error thrown by a provider constructor when the Configuration Store
has no entry for the nickname. -/
inductive ConstructError
  | configNotFound (message : String)
  deriving Repr, DecidableEq

/-- Model metadata from the catalog (`getCompletionModelMetadata`), modelled
from the spec interface `lookup(modelId) → { contextWindow } | absent`. -/
structure ModelMetadata where
  contextWindow : Nat
  deriving Repr, DecidableEq

/-- Side effects recorded by a `configure` run: tokenizer downloads
(`Tokenizers.download`) and Configuration Store writes
(`storage.models.set`).  Interactive prompts and probe requests are inputs
of the environment record instead. -/
inductive ConfigureEffect (σ : Type)
  | download (modelId : String)
  | storeSet (nickname : String) (config : σ)
  deriving Repr, DecidableEq

/-! ## llama.cpp adapter (`src/providers/llamacpp.ts`) -/

/-- `ILlamaCppCompletionModelConfig`: the stored llama.cpp configuration. -/
structure ILlamaCppCompletionModelConfig where
  nickname : String
  providerId : String
  model : String
  contextWindow : Nat
  baseUrl : String
  deriving Repr, DecidableEq

/-- Body of a `POST /tokenize` request: `{content, add_special}`. -/
structure LlamaCppTokenizeBody where
  content : String
  add_special : Bool
  deriving Repr, DecidableEq

/-- `LlamaCppTokenizeResponse`: `{tokens}`. -/
structure LlamaCppTokenizeResponse where
  tokens : List Int
  deriving Repr, DecidableEq

/-- Body of a `POST /detokenize` request: `{tokens}`. -/
structure LlamaCppDetokenizeBody where
  tokens : List Int
  deriving Repr, DecidableEq

/-- `LlamaCppDetokenizeResponse`: `{content}`. -/
structure LlamaCppDetokenizeResponse where
  content : String
  deriving Repr, DecidableEq

/-- Body of a `POST /infill` request.  Wire fields `input_prefix` and
`input_suffix` are named `inputPre`/`inputSuf` here (Lean keyword clash). -/
structure LlamaCppInfillBody where
  inputPre : String
  inputSuf : String
  n_predict : Nat
  stop : List String
  stream : Bool
  deriving Repr, DecidableEq

/-- `LlamaCppInfillResponse`: `content` may be absent; `truncated` and the
`timings` block only feed logging, so only the control-flow-relevant fields
are modelled. -/
structure LlamaCppInfillResponse where
  content : Option String
  truncated : Option Bool
  deriving Repr, DecidableEq

/-- A `POST {baseUrl}/tokenize` or `/detokenize` request as issued
(no signal is passed by the source for these). -/
structure LlamaCppHttpRequest (β : Type) where
  url : String
  body : β
  deriving Repr, DecidableEq

/-- A `POST {baseUrl}/infill` request as issued, carrying the cancellation
signal threaded into `fetch`. -/
structure LlamaCppInfillRequest where
  url : String
  body : LlamaCppInfillBody
  signal : AbortSignal
  deriving Repr, DecidableEq

/-- A llama.cpp provider instance: only its immutable config. -/
structure LlamaCppCompletionModelProvider where
  config : ILlamaCppCompletionModelConfig
  deriving Repr, DecidableEq

/-- The constructor: loads the config for `nickname` from the store and
throws `Model configuration not found for …` when absent.  It performs no
other effect (the source constructor only logs). -/
def LlamaCppCompletionModelProvider.construct
    (store : String → Option ILlamaCppCompletionModelConfig)
    (nickname : String) :
    Except ConstructError LlamaCppCompletionModelProvider :=
  match store nickname with
  | none => Except.error
      (ConstructError.configNotFound
        ("Model configuration not found for " ++ nickname))
  | some config => Except.ok { config := config }

/-- `encode`: one `POST {baseUrl}/tokenize` with `{content: text,
add_special: false}`; non-2xx throws, 2xx returns the `tokens` field. -/
def LlamaCppCompletionModelProvider.encode
    (self : LlamaCppCompletionModelProvider) (text : String)
    (backend : LlamaCppTokenizeBody → HttpResponse LlamaCppTokenizeResponse) :
    List (LlamaCppHttpRequest LlamaCppTokenizeBody) ×
      Except InvokeError (List Int) :=
  let body : LlamaCppTokenizeBody := { content := text, add_special := false }
  let req : LlamaCppHttpRequest LlamaCppTokenizeBody :=
    { url := self.config.baseUrl ++ "/tokenize", body := body }
  let response := backend body
  if response.ok then
    ([req], Except.ok response.body.tokens)
  else
    ([req], Except.error (InvokeError.backendError
      ("Failed to tokenize text: " ++ toString response.status ++ " "
        ++ response.statusText)))

/-- `decode`: one `POST {baseUrl}/detokenize` with `{tokens}`; non-2xx
throws, 2xx returns the `content` field. -/
def LlamaCppCompletionModelProvider.decode
    (self : LlamaCppCompletionModelProvider) (tokens : List Int)
    (backend :
      LlamaCppDetokenizeBody → HttpResponse LlamaCppDetokenizeResponse) :
    List (LlamaCppHttpRequest LlamaCppDetokenizeBody) ×
      Except InvokeError String :=
  let body : LlamaCppDetokenizeBody := { tokens := tokens }
  let req : LlamaCppHttpRequest LlamaCppDetokenizeBody :=
    { url := self.config.baseUrl ++ "/detokenize", body := body }
  let response := backend body
  if response.ok then
    ([req], Except.ok response.body.content)
  else
    ([req], Except.error (InvokeError.backendError
      ("Failed to detokenize tokens: " ++ toString response.status ++ " "
        ++ response.statusText)))

/-- The `/infill` body `invoke` builds:
`{input_prefix: messages?.prefix ?? "", input_suffix: messages?.suffix ?? "",
n_predict: maxTokens ?? 100, stop: stop ?? [], stream: false}`. -/
def LlamaCppCompletionModelProvider.infillBody
    (options : ICompletionModelInvokeOptions) : LlamaCppInfillBody :=
  { inputPre := ((options.messages.bind FimMessages.prefixStr).getD "")
    inputSuf := ((options.messages.bind FimMessages.suffixStr).getD "")
    n_predict := options.maxTokens.getD 100
    stop := options.stop.getD []
    stream := false }

/-- `invoke`: one `POST {baseUrl}/infill` with the body above and the
caller's signal; an already-aborted signal is rejected by the transport
before the backend sees anything; non-2xx throws with status, status text
and error body; 2xx returns `content ?? ""`. -/
def LlamaCppCompletionModelProvider.invoke
    (self : LlamaCppCompletionModelProvider)
    (options : ICompletionModelInvokeOptions)
    (backend : LlamaCppInfillBody → HttpResponse LlamaCppInfillResponse) :
    List LlamaCppInfillRequest × Except InvokeError (Option String) :=
  let body := LlamaCppCompletionModelProvider.infillBody options
  let req : LlamaCppInfillRequest :=
    { url := self.config.baseUrl ++ "/infill", body := body,
      signal := options.signal }
  if options.signal.aborted then
    ([], Except.error InvokeError.cancelled)
  else
    let response := backend body
    if response.ok then
      ([req], Except.ok (some (response.body.content.getD "")))
    else
      ([req], Except.error (InvokeError.backendError
        ("Failed to invoke llama.cpp model: " ++ toString response.status
          ++ " " ++ response.statusText ++ "\n" ++ response.bodyText)))

/-! ## DeepSeek adapter (`src/providers/deepseek.ts`) -/

/-- `IDeepSeekCompletionModelConfig`: the stored DeepSeek configuration. -/
structure IDeepSeekCompletionModelConfig where
  nickname : String
  providerId : String
  model : String
  contextWindow : Nat
  baseUrl : String
  apiKey : String
  deriving Repr, DecidableEq

/-- The completions body `invoke` hands to the OpenAI SDK:
`{prompt: messages.prefix, model, max_tokens, stop, suffix:
messages.suffix, temperature}` — each optional field forwarded verbatim. -/
structure DeepSeekCompletionBody where
  prompt : Option String
  model : String
  max_tokens : Option Nat
  stop : Option (List String)
  suffixArg : Option String
  temperature : Option Rat
  deriving Repr, DecidableEq

/-- One choice of an OpenAI-compatible completions response; `text` may be
absent. -/
structure DeepSeekChoice where
  text : Option String
  deriving Repr, DecidableEq

/-- An OpenAI-compatible completions response; `choices` may be absent. -/
structure DeepSeekCompletionResponse where
  choices : Option (List DeepSeekChoice)
  deriving Repr, DecidableEq

/-- Outcome of an OpenAI SDK `completions.create` call, modelled from the
SDK's documented contract (the SDK is an external dependency): a parsed
response on 2xx, or a thrown API error carrying the backend status and
message on non-2xx. -/
inductive DeepSeekSdkOutcome
  | success (response : DeepSeekCompletionResponse)
  | apiError (status : Nat) (message : String)
  deriving Repr, DecidableEq

/-- A completions request as issued through the SDK: client parameters
(`apiKey`, `baseURL`), the body, and the cancellation signal passed in the
request options. -/
structure DeepSeekSdkRequest where
  baseUrl : String
  apiKey : String
  body : DeepSeekCompletionBody
  signal : AbortSignal
  deriving Repr, DecidableEq

/-- A DeepSeek provider instance: only its immutable config (the tokenizer
handle is produced by `init`). -/
structure DeepSeekCompletionModelProvider where
  config : IDeepSeekCompletionModelConfig
  deriving Repr, DecidableEq

/-- The constructor: loads the config for `nickname` from the store and
throws `Model configuration not found for …` when absent. -/
def DeepSeekCompletionModelProvider.construct
    (store : String → Option IDeepSeekCompletionModelConfig)
    (nickname : String) :
    Except ConstructError DeepSeekCompletionModelProvider :=
  match store nickname with
  | none => Except.error
      (ConstructError.configNotFound
        ("Model configuration not found for " ++ nickname))
  | some config => Except.ok { config := config }

/-- `initialize()`: acquires the tokenizer handle from the Tokenizer Cache,
keyed by `this.config.model` (`Tokenizers.get(this.config.model)`). -/
def DeepSeekCompletionModelProvider.init
    (self : DeepSeekCompletionModelProvider) (cache : TokenizerCache) :
    Tokenizer :=
  cache self.config.model

/-- `encode`: `this.tokenizer.encode(text, false)` — a local computation on
the tokenizer handle; the (empty) request list records that no SDK/network
request is issued. -/
def DeepSeekCompletionModelProvider.encode
    (tokenizer : Tokenizer) (text : String) :
    List DeepSeekSdkRequest × List Int :=
  ([], tokenizer.encodeFn text false)

/-- `decode`: `this.tokenizer.decode(tokens, false)` — local, no request. -/
def DeepSeekCompletionModelProvider.decode
    (tokenizer : Tokenizer) (tokens : List Int) :
    List DeepSeekSdkRequest × String :=
  ([], tokenizer.decodeFn tokens false)

/-- The completions body `invoke` hands to the SDK, given the destructured
`messages` object. -/
def DeepSeekCompletionModelProvider.completionBody
    (self : DeepSeekCompletionModelProvider) (messages : FimMessages)
    (options : ICompletionModelInvokeOptions) : DeepSeekCompletionBody :=
  { prompt := messages.prefixStr
    model := self.config.model
    max_tokens := options.maxTokens
    stop := options.stop
    suffixArg := messages.suffixStr
    temperature := options.temperature }

/-- `invoke`: builds the completions body from the options (an absent
`messages` object faults the destructuring, as in the source), sends one
SDK request carrying the caller's signal; an already-aborted signal is
rejected by the transport before the backend sees anything; on success the
result is `choices?.[0]?.text ?? ""`; an SDK API error propagates. -/
def DeepSeekCompletionModelProvider.invoke
    (self : DeepSeekCompletionModelProvider)
    (options : ICompletionModelInvokeOptions)
    (sdk : DeepSeekCompletionBody → DeepSeekSdkOutcome) :
    List DeepSeekSdkRequest × Except InvokeError (Option String) :=
  match options.messages with
  | none => ([], Except.error InvokeError.typeError)
  | some messages =>
    let body := DeepSeekCompletionModelProvider.completionBody
      self messages options
    let req : DeepSeekSdkRequest :=
      { baseUrl := self.config.baseUrl, apiKey := self.config.apiKey,
        body := body, signal := options.signal }
    if options.signal.aborted then
      ([], Except.error InvokeError.cancelled)
    else
      match sdk body with
      | DeepSeekSdkOutcome.success response =>
        ([req], Except.ok
          (some ((((response.choices.getD []).head?).bind
            DeepSeekChoice.text).getD "")))
      | DeepSeekSdkOutcome.apiError status message =>
        ([req], Except.error (InvokeError.backendError
          (toString status ++ " " ++ message)))

/-- Environment of a DeepSeek `configure` run: the two interactive inputs
(`none` = the user cancelled), whether the connectivity probe through the
SDK succeeds, and the metadata catalog. -/
structure DeepSeekConfigureEnv where
  apiKeyInput : Option String
  baseUrlInput : Option String
  probeOk : Bool
  metadata : String → Option ModelMetadata

/-- `static configure(nickname)`: prompts for API key and base URL (each
cancellable), fixes `model = "deepseek-chat"`, downloads that model's
tokenizer, probes connectivity, looks up catalog metadata (failing with
`Unable to find model metadata` when absent), and finally persists the
config.  Returns the effect trace (downloads and store writes) with the
outcome. -/
def DeepSeekCompletionModelProvider.configure
    (nickname : String) (env : DeepSeekConfigureEnv) :
    List (ConfigureEffect IDeepSeekCompletionModelConfig) ×
      Except ConfigureError Unit :=
  match env.apiKeyInput with
  | none => ([], Except.error
      (ConfigureError.userCancelled "User cancelled DeepSeek API key input"))
  | some apiKeyRaw =>
    let apiKey := apiKeyRaw.trim
    match env.baseUrlInput with
    | none => ([], Except.error
        (ConfigureError.userCancelled "User cancelled base URL input"))
    | some baseUrlRaw =>
      let baseUrl := baseUrlRaw.trim
      let model := "deepseek-chat"
      let downloadEffect := ConfigureEffect.download
        (σ := IDeepSeekCompletionModelConfig) model
      if !env.probeOk then
        ([downloadEffect], Except.error
          (ConfigureError.backendError "Connection test failed"))
      else
        match env.metadata model with
        | none => ([downloadEffect], Except.error
            (ConfigureError.metadataNotFound "Unable to find model metadata"))
        | some metadata =>
          let config : IDeepSeekCompletionModelConfig :=
            { contextWindow := metadata.contextWindow
              baseUrl := baseUrl
              apiKey := apiKey
              model := model
              nickname := nickname
              providerId := "deepseek-completion" }
          ([downloadEffect, ConfigureEffect.storeSet nickname config],
            Except.ok ())

/-! ## Ollama adapter (`src/providers/ollama.ts`) -/

/-- `IOllamaCompletionModelConfig`: the stored Ollama configuration. -/
structure IOllamaCompletionModelConfig where
  nickname : String
  providerId : String
  model : String
  contextWindow : Nat
  baseUrl : String
  deriving Repr, DecidableEq

/-- One entry of the `/api/tags` model list; only `name` drives control
flow (the remaining metadata fields are never read by the source). -/
structure OllamaModel where
  name : String
  deriving Repr, DecidableEq

/-- `OllamaTagsResponse`: `{models}`, where the field may be absent
(the source guards with `data.models || []`). -/
structure OllamaTagsResponse where
  models : Option (List OllamaModel)
  deriving Repr, DecidableEq

/-- Body of a `POST /api/generate` request built by `invoke`:
`{model, prompt: prefix, options: {num_predict: maxTokens},
suffix: suffix || undefined, stream: false}`. -/
structure OllamaGenerateBody where
  model : String
  prompt : Option String
  num_predict : Option Nat
  suffixArg : Option String
  stream : Bool
  deriving Repr, DecidableEq

/-- `OllamaGenerateResponse`: `response` is the output field (may be absent
in the raw JSON); `eval_count`/`eval_duration` only feed logging. -/
structure OllamaGenerateResponse where
  response : Option String
  eval_count : Option Nat
  eval_duration : Option Nat
  deriving Repr, DecidableEq

/-- A `POST {baseUrl}/api/generate` request as issued, carrying the
cancellation signal threaded into `fetch`. -/
structure OllamaGenerateRequest where
  url : String
  body : OllamaGenerateBody
  signal : AbortSignal
  deriving Repr, DecidableEq

/-- An Ollama provider instance: only its immutable config. -/
structure OllamaCompletionModelProvider where
  config : IOllamaCompletionModelConfig
  deriving Repr, DecidableEq

/-- The constructor: loads the config for `nickname` from the store and
throws `Model configuration not found for …` when absent. -/
def OllamaCompletionModelProvider.construct
    (store : String → Option IOllamaCompletionModelConfig)
    (nickname : String) :
    Except ConstructError OllamaCompletionModelProvider :=
  match store nickname with
  | none => Except.error
      (ConstructError.configNotFound
        ("Model configuration not found for " ++ nickname))
  | some config => Except.ok { config := config }

/-- `initialize()`: acquires the tokenizer handle from the Tokenizer Cache,
keyed by `this.config.model`. -/
def OllamaCompletionModelProvider.init
    (self : OllamaCompletionModelProvider) (cache : TokenizerCache) :
    Tokenizer :=
  cache self.config.model

/-- `encode`: `this.tokenizer.encode(text, false)` — local, no request. -/
def OllamaCompletionModelProvider.encode
    (tokenizer : Tokenizer) (text : String) :
    List OllamaGenerateRequest × List Int :=
  ([], tokenizer.encodeFn text false)

/-- `decode`: `this.tokenizer.decode(tokens, false)` — local, no request. -/
def OllamaCompletionModelProvider.decode
    (tokenizer : Tokenizer) (tokens : List Int) :
    List OllamaGenerateRequest × String :=
  ([], tokenizer.decodeFn tokens false)

/-- JS `suffix || undefined`: an empty (falsy) string becomes `undefined`. -/
def jsStringOrUndefined (s : Option String) : Option String :=
  match s with
  | some s => if s = "" then none else some s
  | none => none

/-- The `/api/generate` body `invoke` builds, given the destructured
`messages` object. -/
def OllamaCompletionModelProvider.generateBody
    (self : OllamaCompletionModelProvider) (messages : FimMessages)
    (options : ICompletionModelInvokeOptions) : OllamaGenerateBody :=
  { model := self.config.model
    prompt := messages.prefixStr
    num_predict := options.maxTokens
    suffixArg := jsStringOrUndefined messages.suffixStr
    stream := false }

/-- `invoke`: destructures `options.messages` (faulting when absent, as in
the source), sends one `POST {baseUrl}/api/generate` with the caller's
signal; an already-aborted signal is rejected by the transport before the
backend sees anything; non-2xx throws
`Ollama API request failed: {statusText}`; 2xx returns `data.response`
verbatim (no defaulting). -/
def OllamaCompletionModelProvider.invoke
    (self : OllamaCompletionModelProvider)
    (options : ICompletionModelInvokeOptions)
    (backend : OllamaGenerateBody → HttpResponse OllamaGenerateResponse) :
    List OllamaGenerateRequest × Except InvokeError (Option String) :=
  match options.messages with
  | none => ([], Except.error InvokeError.typeError)
  | some messages =>
    let body := OllamaCompletionModelProvider.generateBody
      self messages options
    let req : OllamaGenerateRequest :=
      { url := self.config.baseUrl ++ "/api/generate", body := body,
        signal := options.signal }
    if options.signal.aborted then
      ([], Except.error InvokeError.cancelled)
    else
      let response := backend body
      if response.ok then
        ([req], Except.ok response.body.response)
      else
        ([req], Except.error (InvokeError.backendError
          ("Ollama API request failed: " ++ response.statusText)))

/-- JS `a || b` on a looked-up number: absent or `0` falls back to `b`
(the source's `contextWindowMap.get(model.label) || 4096`). -/
def jsNatOrDefault (o : Option Nat) (d : Nat) : Nat :=
  match o with
  | some n => if n = 0 then d else n
  | none => d

/-- Environment of an Ollama `configure` run: the base-URL prompt
(`none` = cancelled), the `/api/tags` response, the metadata catalog, the
user's quick-pick selection over the offered labels (`none` = cancelled),
and the connectivity-probe response. -/
structure OllamaConfigureEnv where
  baseUrlInput : Option String
  tagsResponse : HttpResponse OllamaTagsResponse
  metadata : String → Option ModelMetadata
  quickPick : List String → Option String
  probeResponse : HttpResponse Unit

/-- The pick-up items Ollama `configure` builds: the names of listed models
the metadata catalog recognizes. -/
def ollamaModelPickUpItems (metadata : String → Option ModelMetadata)
    (models : List OllamaModel) : List String :=
  models.filterMap (fun mo =>
    if (metadata mo.name).isSome then some mo.name else none)

/-- The context-window pairs Ollama `configure` collects: one entry per
recognized model whose metadata has a truthy (nonzero) `contextWindow`.
Lookup reverses the list so a later duplicate wins, as with `Map.set`. -/
def ollamaContextWindowPairs (metadata : String → Option ModelMetadata)
    (models : List OllamaModel) : List (String × Nat) :=
  models.filterMap (fun mo =>
    (metadata mo.name).bind (fun md =>
      if md.contextWindow ≠ 0 then some (mo.name, md.contextWindow)
      else none))

/-- `static configure(nickname)`: prompts for the base URL (cancellable),
fetches `/api/tags` (non-2xx throws `Failed to fetch models: …`), filters
the listed models to those the catalog recognizes, throws
`No models found for the given configuration` when none remain, lets the
user pick one (cancellable), downloads its tokenizer, probes `/api/generate`
(non-2xx throws `Connection test failed: …`), and persists
`{contextWindow: map.get(model) || 4096, baseUrl, model, nickname,
providerId}`.  Returns the effect trace (downloads and store writes) with
the outcome. -/
def OllamaCompletionModelProvider.configure
    (nickname : String) (env : OllamaConfigureEnv) :
    List (ConfigureEffect IOllamaCompletionModelConfig) ×
      Except ConfigureError Unit :=
  match env.baseUrlInput with
  | none => ([], Except.error
      (ConfigureError.userCancelled "User cancelled base URL input"))
  | some baseUrlRaw =>
    let baseUrl := baseUrlRaw.trim
    if !env.tagsResponse.ok then
      ([], Except.error (ConfigureError.backendError
        ("Failed to fetch models: " ++ env.tagsResponse.statusText)))
    else
      let modelsList := env.tagsResponse.body.models.getD []
      let items := ollamaModelPickUpItems env.metadata modelsList
      let cwPairs := ollamaContextWindowPairs env.metadata modelsList
      if items = [] then
        ([], Except.error (ConfigureError.noModelsFound
          "No models found for the given configuration"))
      else
        match env.quickPick items with
        | none => ([], Except.error
            (ConfigureError.userCancelled "User cancelled model selection"))
        | some label =>
          let downloadEffect := ConfigureEffect.download
            (σ := IOllamaCompletionModelConfig) label
          if !env.probeResponse.ok then
            ([downloadEffect], Except.error (ConfigureError.backendError
              ("Connection test failed: " ++ env.probeResponse.statusText)))
          else
            let config : IOllamaCompletionModelConfig :=
              { contextWindow :=
                  jsNatOrDefault (cwPairs.reverse.lookup label) 4096
                baseUrl := baseUrl
                model := label
                nickname := nickname
                providerId := "ollama-completion" }
            ([downloadEffect, ConfigureEffect.storeSet nickname config],
              Except.ok ())

/-! ## Claims -/

/-- C4: for every adapter and every nickname with no entry in the
Configuration Store, construction fails with the config-not-found error —
so no (partially initialized) instance is ever returned — and the
constructor consults nothing beyond the store's entry for that nickname:
two stores agreeing on the nickname give identical outcomes, so the
constructor has no side channel and performs no network I/O. -/
theorem construct_missing_nickname_fails
    (storeL : String → Option ILlamaCppCompletionModelConfig)
    (storeD : String → Option IDeepSeekCompletionModelConfig)
    (storeO : String → Option IOllamaCompletionModelConfig)
    (nickname : String)
    (hL : storeL nickname = none) (hD : storeD nickname = none)
    (hO : storeO nickname = none) :
    LlamaCppCompletionModelProvider.construct storeL nickname =
      Except.error (ConstructError.configNotFound
        ("Model configuration not found for " ++ nickname)) ∧
    DeepSeekCompletionModelProvider.construct storeD nickname =
      Except.error (ConstructError.configNotFound
        ("Model configuration not found for " ++ nickname)) ∧
    OllamaCompletionModelProvider.construct storeO nickname =
      Except.error (ConstructError.configNotFound
        ("Model configuration not found for " ++ nickname)) ∧
    (∀ (s t : String → Option ILlamaCppCompletionModelConfig) (n : String),
      s n = t n →
      LlamaCppCompletionModelProvider.construct s n =
        LlamaCppCompletionModelProvider.construct t n) ∧
    (∀ (s t : String → Option IDeepSeekCompletionModelConfig) (n : String),
      s n = t n →
      DeepSeekCompletionModelProvider.construct s n =
        DeepSeekCompletionModelProvider.construct t n) ∧
    (∀ (s t : String → Option IOllamaCompletionModelConfig) (n : String),
      s n = t n →
      OllamaCompletionModelProvider.construct s n =
        OllamaCompletionModelProvider.construct t n) := by
  refine ⟨?_, ?_, ?_, ?_, ?_, ?_⟩
  · simp [LlamaCppCompletionModelProvider.construct, hL]
  · simp [DeepSeekCompletionModelProvider.construct, hD]
  · simp [OllamaCompletionModelProvider.construct, hO]
  · intro s t n h
    simp only [LlamaCppCompletionModelProvider.construct, h]
  · intro s t n h
    simp only [DeepSeekCompletionModelProvider.construct, h]
  · intro s t n h
    simp only [OllamaCompletionModelProvider.construct, h]

/-- Witness for C4 at the empty store and nickname `"local-llama"`. -/
theorem construct_missing_nickname_fails_witness :
    (fun _ => none : String → Option ILlamaCppCompletionModelConfig)
        "local-llama" = none ∧
    LlamaCppCompletionModelProvider.construct (fun _ => none) "local-llama" =
      Except.error (ConstructError.configNotFound
        ("Model configuration not found for " ++ "local-llama")) :=
  ⟨rfl,
    (construct_missing_nickname_fails (fun _ => none) (fun _ => none)
      (fun _ => none) "local-llama" rfl rfl rfl).1⟩

/-- C5: for a llama.cpp provider whose stored config is
`{baseUrl, model:"", contextWindow:32768}`, `invoke` with messages
`{prefix p, suffix s}`, `maxTokens n` and stop list `l` issues exactly one
POST to `baseUrl ++ "/infill"` whose body is
`{input_prefix: p, input_suffix: s, n_predict: n, stop: l, stream: false}`,
and on a 2xx response returns exactly the response's `content` field, or
`""` when that field is absent. -/
theorem llamacpp_invoke_wire_contract
    (cfg : ILlamaCppCompletionModelConfig)
    (options : ICompletionModelInvokeOptions)
    (p s : String) (n : Nat) (l : List String) (body : LlamaCppInfillBody)
    (backend : LlamaCppInfillBody → HttpResponse LlamaCppInfillResponse)
    (hmodel : cfg.model = "") (hcw : cfg.contextWindow = 32768)
    (hmsg : options.messages =
      some { prefixStr := some p, suffixStr := some s })
    (hmax : options.maxTokens = some n) (hstop : options.stop = some l)
    (hsig : options.signal.aborted = false)
    (hbody : body =
      { inputPre := p, inputSuf := s, n_predict := n, stop := l,
        stream := false }) :
    (LlamaCppCompletionModelProvider.invoke ⟨cfg⟩ options backend).1 =
      [{ url := cfg.baseUrl ++ "/infill", body := body,
         signal := options.signal }] ∧
    ((backend body).ok = true →
      (LlamaCppCompletionModelProvider.invoke ⟨cfg⟩ options backend).2 =
        Except.ok (some ((backend body).body.content.getD ""))) := by
  have hinfill : LlamaCppCompletionModelProvider.infillBody options = body := by
    simp [LlamaCppCompletionModelProvider.infillBody, hmsg, hmax, hstop, hbody]
  constructor
  · simp only [LlamaCppCompletionModelProvider.invoke, hinfill, hsig,
      Bool.false_eq_true, if_false]
    split <;> rfl
  · intro hok
    simp [LlamaCppCompletionModelProvider.invoke, hinfill, hsig, hok]

/-- Witness for C5 at the spec's end-to-end example: base URL
`http://localhost:8012`, prefix `"def add(a, b):\n    "`, empty suffix,
50 max tokens, empty stop list, and a 2xx backend answering
`{content: "return a + b"}`. -/
theorem llamacpp_invoke_wire_contract_witness :
    (LlamaCppCompletionModelProvider.invoke
      ⟨{ nickname := "local", providerId := "llama.cpp-completion",
         model := "", contextWindow := 32768,
         baseUrl := "http://localhost:8012" }⟩
      { messages := some { prefixStr := some "def add(a, b):\n    ",
                           suffixStr := some "" },
        maxTokens := some 50, stop := some [], temperature := none,
        signal := { aborted := false } }
      (fun _ => { status := 200, statusText := "OK", bodyText := "",
                  body := { content := some "return a + b",
                            truncated := none } })).1 =
      [{ url := "http://localhost:8012" ++ "/infill",
         body := { inputPre := "def add(a, b):\n    ", inputSuf := "",
                   n_predict := 50, stop := [], stream := false },
         signal := { aborted := false } }] ∧
    (LlamaCppCompletionModelProvider.invoke
      ⟨{ nickname := "local", providerId := "llama.cpp-completion",
         model := "", contextWindow := 32768,
         baseUrl := "http://localhost:8012" }⟩
      { messages := some { prefixStr := some "def add(a, b):\n    ",
                           suffixStr := some "" },
        maxTokens := some 50, stop := some [], temperature := none,
        signal := { aborted := false } }
      (fun _ => { status := 200, statusText := "OK", bodyText := "",
                  body := { content := some "return a + b",
                            truncated := none } })).2 =
      Except.ok (some "return a + b") := by
  have h := llamacpp_invoke_wire_contract
    { nickname := "local", providerId := "llama.cpp-completion",
      model := "", contextWindow := 32768,
      baseUrl := "http://localhost:8012" }
    { messages := some { prefixStr := some "def add(a, b):\n    ",
                         suffixStr := some "" },
      maxTokens := some 50, stop := some [], temperature := none,
      signal := { aborted := false } }
    "def add(a, b):\n    " "" 50 []
    { inputPre := "def add(a, b):\n    ", inputSuf := "", n_predict := 50,
      stop := [], stream := false }
    (fun _ => { status := 200, statusText := "OK", bodyText := "",
                body := { content := some "return a + b",
                          truncated := none } })
    rfl rfl rfl rfl rfl rfl rfl
  exact ⟨h.1, h.2 rfl⟩

/-- C6: DeepSeek `encode` issues no network request — it is the local
computation `tokenizer.encode(text, false)` on the tokenizer handle —
while llama.cpp `encode` always issues exactly one POST to the configured
server's `/tokenize` endpoint with body `{content: text,
add_special: false}` and, on success, returns the response's `tokens`
field. -/
theorem deepseek_local_llamacpp_remote_encode
    (tokenizer : Tokenizer) (text : String)
    (self : LlamaCppCompletionModelProvider)
    (backend : LlamaCppTokenizeBody → HttpResponse LlamaCppTokenizeResponse) :
    DeepSeekCompletionModelProvider.encode tokenizer text =
      ([], tokenizer.encodeFn text false) ∧
    (LlamaCppCompletionModelProvider.encode self text backend).1 =
      [{ url := self.config.baseUrl ++ "/tokenize",
         body := { content := text, add_special := false } }] ∧
    ((backend { content := text, add_special := false }).ok = true →
      (LlamaCppCompletionModelProvider.encode self text backend).2 =
        Except.ok (backend { content := text,
                             add_special := false }).body.tokens) := by
  refine ⟨rfl, ?_, ?_⟩
  · simp only [LlamaCppCompletionModelProvider.encode]
    split <;> rfl
  · intro hok
    simp [LlamaCppCompletionModelProvider.encode, hok]

/-- Witness for C6 at `encode "hello"` with a 2xx backend answering
`{tokens: [15339]}`. -/
theorem deepseek_local_llamacpp_remote_encode_witness :
    DeepSeekCompletionModelProvider.encode
      { encodeFn := fun _ _ => [15339], decodeFn := fun _ _ => "hello" }
      "hello" = ([], [15339]) ∧
    (LlamaCppCompletionModelProvider.encode
      ⟨{ nickname := "local", providerId := "llama.cpp-completion",
         model := "", contextWindow := 32768,
         baseUrl := "http://localhost:8012" }⟩
      "hello"
      (fun _ => { status := 200, statusText := "OK", bodyText := "",
                  body := { tokens := [15339] } })).2 =
      Except.ok [15339] := by
  have h := deepseek_local_llamacpp_remote_encode
    { encodeFn := fun _ _ => [15339], decodeFn := fun _ _ => "hello" }
    "hello"
    ⟨{ nickname := "local", providerId := "llama.cpp-completion",
       model := "", contextWindow := 32768,
       baseUrl := "http://localhost:8012" }⟩
    (fun _ => { status := 200, statusText := "OK", bodyText := "",
                body := { tokens := [15339] } })
  exact ⟨h.1, h.2.2 rfl⟩

/-- C10: defaults the llama.cpp adapter applies when building the `/infill`
body: an absent `maxTokens` is sent as `n_predict: 100`; an absent
`messages` object (or an absent `prefix`/`suffix` within it) is sent as the
empty `input_prefix`/`input_suffix`; an absent `stop` is sent as `stop: []`;
and this body is what the single issued POST carries. -/
theorem llamacpp_invoke_defaults
    (options : ICompletionModelInvokeOptions) :
    (options.maxTokens = none →
      (LlamaCppCompletionModelProvider.infillBody options).n_predict = 100) ∧
    (options.messages = none →
      (LlamaCppCompletionModelProvider.infillBody options).inputPre = "" ∧
      (LlamaCppCompletionModelProvider.infillBody options).inputSuf = "") ∧
    (∀ messages, options.messages = some messages →
      (messages.prefixStr = none →
        (LlamaCppCompletionModelProvider.infillBody options).inputPre = "") ∧
      (messages.suffixStr = none →
        (LlamaCppCompletionModelProvider.infillBody options).inputSuf = "")) ∧
    (options.stop = none →
      (LlamaCppCompletionModelProvider.infillBody options).stop = []) ∧
    (∀ (self : LlamaCppCompletionModelProvider)
      (backend : LlamaCppInfillBody → HttpResponse LlamaCppInfillResponse),
      options.signal.aborted = false →
      (LlamaCppCompletionModelProvider.invoke self options backend).1 =
        [{ url := self.config.baseUrl ++ "/infill",
           body := LlamaCppCompletionModelProvider.infillBody options,
           signal := options.signal }]) := by
  refine ⟨?_, ?_, ?_, ?_, ?_⟩
  · intro h
    simp [LlamaCppCompletionModelProvider.infillBody, h]
  · intro h
    simp [LlamaCppCompletionModelProvider.infillBody, h]
  · intro messages hm
    constructor
    · intro h
      simp [LlamaCppCompletionModelProvider.infillBody, hm, h]
    · intro h
      simp [LlamaCppCompletionModelProvider.infillBody, hm, h]
  · intro h
    simp [LlamaCppCompletionModelProvider.infillBody, h]
  · intro self backend hsig
    simp only [LlamaCppCompletionModelProvider.invoke, hsig,
      Bool.false_eq_true, if_false]
    split <;> rfl

/-- Witness for C10: an options record with every optional field absent is
sent as `{input_prefix: "", input_suffix: "", n_predict: 100, stop: [],
stream: false}`. -/
theorem llamacpp_invoke_defaults_witness :
    (LlamaCppCompletionModelProvider.infillBody
      { messages := none, maxTokens := none, stop := none,
        temperature := none, signal := { aborted := false } }).n_predict =
        100 ∧
    (LlamaCppCompletionModelProvider.infillBody
      { messages := none, maxTokens := none, stop := none,
        temperature := none, signal := { aborted := false } }).inputPre =
        "" ∧
    (LlamaCppCompletionModelProvider.infillBody
      { messages := none, maxTokens := none, stop := none,
        temperature := none, signal := { aborted := false } }).inputSuf =
        "" ∧
    (LlamaCppCompletionModelProvider.infillBody
      { messages := none, maxTokens := none, stop := none,
        temperature := none, signal := { aborted := false } }).stop = [] := by
  have h := llamacpp_invoke_defaults
    { messages := none, maxTokens := none, stop := none,
      temperature := none, signal := { aborted := false } }
  exact ⟨h.1 rfl, (h.2.1 rfl).1, (h.2.1 rfl).2, h.2.2.2.1 rfl⟩

/-- C1 counterexample: an Ollama backend that answers 2xx with the
`response` field absent makes `invoke` resolve to the absent (undefined)
value, which is not the empty string — refuting "resolves to the empty
string" for the Ollama adapter in the absent-field case. -/
theorem ollama_invoke_absent_field_not_empty_string :
    (OllamaCompletionModelProvider.invoke
      ⟨{ nickname := "local", providerId := "ollama-completion",
         model := "qwen2.5-coder", contextWindow := 4096,
         baseUrl := "http://localhost:11434" }⟩
      { messages := some { prefixStr := some "def add(a, b):",
                           suffixStr := some "" },
        maxTokens := some 50, stop := some [], temperature := none,
        signal := { aborted := false } }
      (fun _ => { status := 200, statusText := "OK", bodyText := "{}",
                  body := { response := none, eval_count := none,
                            eval_duration := none } })).2 =
      Except.ok none ∧
    (Except.ok none : Except InvokeError (Option String)) ≠
      Except.ok (some "") := by
  constructor
  · rfl
  · simp

/-- C1 (amended): when the backend answers 2xx reporting no generated
content, `invoke` never throws; llama.cpp and DeepSeek resolve to the
empty string whether their content/text field is empty or absent, and
Ollama resolves to the empty string when the `response` field is the empty
string — but when that field is absent Ollama resolves to the absent
(undefined) value rather than the empty string, still without throwing. -/
theorem invoke_empty_completion_resolves_without_throw
    (selfL : LlamaCppCompletionModelProvider)
    (selfD : DeepSeekCompletionModelProvider)
    (selfO : OllamaCompletionModelProvider)
    (options : ICompletionModelInvokeOptions) (messages : FimMessages)
    (hmsg : options.messages = some messages)
    (hsig : options.signal.aborted = false)
    (backL : LlamaCppInfillBody → HttpResponse LlamaCppInfillResponse)
    (sdkD : DeepSeekCompletionBody → DeepSeekSdkOutcome)
    (backO : OllamaGenerateBody → HttpResponse OllamaGenerateResponse)
    (respD : DeepSeekCompletionResponse) :
    ((backL (LlamaCppCompletionModelProvider.infillBody options)).ok =
        true →
      (backL (LlamaCppCompletionModelProvider.infillBody
          options)).body.content = none ∨
        (backL (LlamaCppCompletionModelProvider.infillBody
          options)).body.content = some "" →
      (LlamaCppCompletionModelProvider.invoke selfL options backL).2 =
        Except.ok (some "")) ∧
    (sdkD (DeepSeekCompletionModelProvider.completionBody
        selfD messages options) = DeepSeekSdkOutcome.success respD →
      ((respD.choices.getD []).head?).bind DeepSeekChoice.text = none ∨
        ((respD.choices.getD []).head?).bind DeepSeekChoice.text =
          some "" →
      (DeepSeekCompletionModelProvider.invoke selfD options sdkD).2 =
        Except.ok (some "")) ∧
    ((backO (OllamaCompletionModelProvider.generateBody
        selfO messages options)).ok = true →
      ((backO (OllamaCompletionModelProvider.generateBody
          selfO messages options)).body.response = some "" →
        (OllamaCompletionModelProvider.invoke selfO options backO).2 =
          Except.ok (some "")) ∧
      ((backO (OllamaCompletionModelProvider.generateBody
          selfO messages options)).body.response = none →
        (OllamaCompletionModelProvider.invoke selfO options backO).2 =
          Except.ok none)) := by
  refine ⟨?_, ?_, ?_⟩
  · intro hok hcontent
    rcases hcontent with h | h <;>
      simp [LlamaCppCompletionModelProvider.invoke, hsig, hok, h]
  · intro hsdk htext
    simp only [DeepSeekCompletionModelProvider.invoke, hmsg, hsig,
      Bool.false_eq_true, if_false, hsdk]
    rcases htext with h | h <;> simp [h]
  · intro hok
    constructor
    · intro h
      simp [OllamaCompletionModelProvider.invoke, hmsg, hsig, hok, h]
    · intro h
      simp [OllamaCompletionModelProvider.invoke, hmsg, hsig, hok, h]

/-- Witness for C1 (amended): concrete 2xx responses with empty or absent
content for each adapter. -/
theorem invoke_empty_completion_resolves_without_throw_witness :
    (LlamaCppCompletionModelProvider.invoke
      ⟨{ nickname := "l", providerId := "llama.cpp-completion", model := "",
         contextWindow := 32768, baseUrl := "http://localhost:8012" }⟩
      { messages := some { prefixStr := some "x", suffixStr := some "" },
        maxTokens := some 1, stop := some [], temperature := none,
        signal := { aborted := false } }
      (fun _ => { status := 200, statusText := "OK", bodyText := "",
                  body := { content := none, truncated := none } })).2 =
      Except.ok (some "") ∧
    (DeepSeekCompletionModelProvider.invoke
      ⟨{ nickname := "d", providerId := "deepseek-completion",
         model := "deepseek-chat", contextWindow := 65536,
         baseUrl := "https://api.deepseek.com/beta", apiKey := "k" }⟩
      { messages := some { prefixStr := some "x", suffixStr := some "" },
        maxTokens := some 1, stop := some [], temperature := none,
        signal := { aborted := false } }
      (fun _ => DeepSeekSdkOutcome.success { choices := some [] })).2 =
      Except.ok (some "") ∧
    (OllamaCompletionModelProvider.invoke
      ⟨{ nickname := "o", providerId := "ollama-completion",
         model := "qwen2.5-coder", contextWindow := 4096,
         baseUrl := "http://localhost:11434" }⟩
      { messages := some { prefixStr := some "x", suffixStr := some "" },
        maxTokens := some 1, stop := some [], temperature := none,
        signal := { aborted := false } }
      (fun _ => { status := 200, statusText := "OK", bodyText := "",
                  body := { response := some "", eval_count := none,
                            eval_duration := none } })).2 =
      Except.ok (some "") := by
  have h := invoke_empty_completion_resolves_without_throw
    ⟨{ nickname := "l", providerId := "llama.cpp-completion", model := "",
       contextWindow := 32768, baseUrl := "http://localhost:8012" }⟩
    ⟨{ nickname := "d", providerId := "deepseek-completion",
       model := "deepseek-chat", contextWindow := 65536,
       baseUrl := "https://api.deepseek.com/beta", apiKey := "k" }⟩
    ⟨{ nickname := "o", providerId := "ollama-completion",
       model := "qwen2.5-coder", contextWindow := 4096,
       baseUrl := "http://localhost:11434" }⟩
    { messages := some { prefixStr := some "x", suffixStr := some "" },
      maxTokens := some 1, stop := some [], temperature := none,
      signal := { aborted := false } }
    { prefixStr := some "x", suffixStr := some "" }
    rfl rfl
    (fun _ => { status := 200, statusText := "OK", bodyText := "",
                body := { content := none, truncated := none } })
    (fun _ => DeepSeekSdkOutcome.success { choices := some [] })
    (fun _ => { status := 200, statusText := "OK", bodyText := "",
                body := { response := some "", eval_count := none,
                          eval_duration := none } })
    { choices := some [] }
  exact ⟨h.1 rfl (Or.inl rfl), h.2.1 rfl (Or.inl rfl),
    (h.2.2 rfl).1 rfl⟩

/-- C2 counterexample: two Ollama backends that fail with distinct statuses
(500 and 404) but the same status text produce the very same thrown error,
so the error cannot carry the backend status — refuting "carries both the
backend status and the backend's message" for the Ollama adapter. -/
theorem ollama_invoke_error_lacks_status_code :
    (OllamaCompletionModelProvider.invoke
      ⟨{ nickname := "local", providerId := "ollama-completion",
         model := "qwen2.5-coder", contextWindow := 4096,
         baseUrl := "http://localhost:11434" }⟩
      { messages := some { prefixStr := some "def add(a, b):",
                           suffixStr := some "" },
        maxTokens := some 50, stop := some [], temperature := none,
        signal := { aborted := false } }
      (fun _ => { status := 500, statusText := "Server Error",
                  bodyText := "",
                  body := { response := none, eval_count := none,
                            eval_duration := none } })).2 =
      (OllamaCompletionModelProvider.invoke
        ⟨{ nickname := "local", providerId := "ollama-completion",
           model := "qwen2.5-coder", contextWindow := 4096,
           baseUrl := "http://localhost:11434" }⟩
        { messages := some { prefixStr := some "def add(a, b):",
                             suffixStr := some "" },
          maxTokens := some 50, stop := some [], temperature := none,
          signal := { aborted := false } }
        (fun _ => { status := 404, statusText := "Server Error",
                    bodyText := "",
                    body := { response := none, eval_count := none,
                              eval_duration := none } })).2 ∧
    (OllamaCompletionModelProvider.invoke
      ⟨{ nickname := "local", providerId := "ollama-completion",
         model := "qwen2.5-coder", contextWindow := 4096,
         baseUrl := "http://localhost:11434" }⟩
      { messages := some { prefixStr := some "def add(a, b):",
                           suffixStr := some "" },
        maxTokens := some 50, stop := some [], temperature := none,
        signal := { aborted := false } }
      (fun _ => { status := 500, statusText := "Server Error",
                  bodyText := "",
                  body := { response := none, eval_count := none,
                            eval_duration := none } })).2 =
      Except.error (InvokeError.backendError
        ("Ollama API request failed: " ++ "Server Error")) := by
  exact ⟨rfl, rfl⟩

/-- C2 (amended): a non-2xx backend response makes `invoke` throw with no
retry — exactly the one original request reaches the backend.  The
llama.cpp error message carries the backend status code, status text and
error body; the Ollama error message carries only the backend's status
text, not the numeric status.  (DeepSeek delegates this translation to the
OpenAI SDK, whose thrown API error carries status and message.) -/
theorem invoke_non2xx_throws_no_retry
    (selfL : LlamaCppCompletionModelProvider)
    (selfO : OllamaCompletionModelProvider)
    (selfD : DeepSeekCompletionModelProvider)
    (options : ICompletionModelInvokeOptions) (messages : FimMessages)
    (hmsg : options.messages = some messages)
    (hsig : options.signal.aborted = false)
    (backL : LlamaCppInfillBody → HttpResponse LlamaCppInfillResponse)
    (backO : OllamaGenerateBody → HttpResponse OllamaGenerateResponse)
    (sdkD : DeepSeekCompletionBody → DeepSeekSdkOutcome)
    (st : Nat) (msg : String)
    (hokL : (backL (LlamaCppCompletionModelProvider.infillBody
      options)).ok = false)
    (hokO : (backO (OllamaCompletionModelProvider.generateBody
      selfO messages options)).ok = false)
    (hsdk : sdkD (DeepSeekCompletionModelProvider.completionBody
      selfD messages options) = DeepSeekSdkOutcome.apiError st msg) :
    LlamaCppCompletionModelProvider.invoke selfL options backL =
      ([{ url := selfL.config.baseUrl ++ "/infill",
          body := LlamaCppCompletionModelProvider.infillBody options,
          signal := options.signal }],
        Except.error (InvokeError.backendError
          ("Failed to invoke llama.cpp model: "
            ++ toString (backL (LlamaCppCompletionModelProvider.infillBody
                options)).status
            ++ " "
            ++ (backL (LlamaCppCompletionModelProvider.infillBody
                options)).statusText
            ++ "\n"
            ++ (backL (LlamaCppCompletionModelProvider.infillBody
                options)).bodyText))) ∧
    OllamaCompletionModelProvider.invoke selfO options backO =
      ([{ url := selfO.config.baseUrl ++ "/api/generate",
          body := OllamaCompletionModelProvider.generateBody
            selfO messages options,
          signal := options.signal }],
        Except.error (InvokeError.backendError
          ("Ollama API request failed: "
            ++ (backO (OllamaCompletionModelProvider.generateBody
                selfO messages options)).statusText))) ∧
    DeepSeekCompletionModelProvider.invoke selfD options sdkD =
      ([{ baseUrl := selfD.config.baseUrl, apiKey := selfD.config.apiKey,
          body := DeepSeekCompletionModelProvider.completionBody
            selfD messages options,
          signal := options.signal }],
        Except.error (InvokeError.backendError
          (toString st ++ " " ++ msg))) := by
  refine ⟨?_, ?_, ?_⟩
  · simp [LlamaCppCompletionModelProvider.invoke, hsig, hokL]
  · simp [OllamaCompletionModelProvider.invoke, hmsg, hsig, hokO]
  · simp [DeepSeekCompletionModelProvider.invoke, hmsg, hsig, hsdk]

/-- Witness for C2 (amended) at a concrete 500 response for each adapter. -/
theorem invoke_non2xx_throws_no_retry_witness :
    (LlamaCppCompletionModelProvider.invoke
      ⟨{ nickname := "l", providerId := "llama.cpp-completion", model := "",
         contextWindow := 32768, baseUrl := "http://localhost:8012" }⟩
      { messages := some { prefixStr := some "x", suffixStr := some "" },
        maxTokens := some 1, stop := some [], temperature := none,
        signal := { aborted := false } }
      (fun _ => { status := 500, statusText := "Server Error",
                  bodyText := "boom",
                  body := { content := none, truncated := none } })).2 =
      Except.error (InvokeError.backendError
        ("Failed to invoke llama.cpp model: "
          ++ toString 500 ++ " " ++ "Server Error" ++ "\n" ++ "boom")) := by
  have h := invoke_non2xx_throws_no_retry
    ⟨{ nickname := "l", providerId := "llama.cpp-completion", model := "",
       contextWindow := 32768, baseUrl := "http://localhost:8012" }⟩
    ⟨{ nickname := "o", providerId := "ollama-completion",
       model := "qwen2.5-coder", contextWindow := 4096,
       baseUrl := "http://localhost:11434" }⟩
    ⟨{ nickname := "d", providerId := "deepseek-completion",
       model := "deepseek-chat", contextWindow := 65536,
       baseUrl := "https://api.deepseek.com/beta", apiKey := "k" }⟩
    { messages := some { prefixStr := some "x", suffixStr := some "" },
      maxTokens := some 1, stop := some [], temperature := none,
      signal := { aborted := false } }
    { prefixStr := some "x", suffixStr := some "" }
    rfl rfl
    (fun _ => { status := 500, statusText := "Server Error",
                bodyText := "boom",
                body := { content := none, truncated := none } })
    (fun _ => { status := 500, statusText := "Server Error",
                bodyText := "",
                body := { response := none, eval_count := none,
                          eval_duration := none } })
    (fun _ => DeepSeekSdkOutcome.apiError 401 "Unauthorized")
    401 "Unauthorized" rfl rfl rfl
  exact congrArg Prod.snd h.1

/-- C3 counterexample: with a cache that answers a distinguishable handle
per key and a stored config whose `model` field is not `"deepseek-chat"`,
DeepSeek `initialize` returns the handle keyed by the config's `model`
field, not the one keyed by the fixed id `"deepseek-chat"` — refuting
"keyed by the fixed model id, independent of the stored config's model
field". -/
theorem deepseek_init_keyed_by_config_model :
    (DeepSeekCompletionModelProvider.init
      ⟨{ nickname := "d", providerId := "deepseek-completion",
         model := "other-model", contextWindow := 65536,
         baseUrl := "https://api.deepseek.com/beta", apiKey := "k" }⟩
      (fun id => if id = "deepseek-chat"
        then { encodeFn := fun _ _ => [0], decodeFn := fun _ _ => "" }
        else { encodeFn := fun _ _ => [1],
               decodeFn := fun _ _ => "" })).encodeFn "" false = [1] ∧
    ((fun id => if id = "deepseek-chat"
        then { encodeFn := fun _ _ => [0], decodeFn := fun _ _ => "" }
        else { encodeFn := fun _ _ => [1],
               decodeFn := fun _ _ => "" } : TokenizerCache)
      "deepseek-chat").encodeFn "" false = [0] := by
  exact ⟨rfl, rfl⟩

/-- C3 (amended): DeepSeek `initialize` acquires its tokenizer handle from
the Tokenizer Cache keyed by the stored config's `model` field; every
config the DeepSeek `configure` routine persists has
`model = "deepseek-chat"`, so configs produced by `configure` yield that
key; and the subsequent `encode`/`decode` calls are local computations on
that handle issuing no network request. -/
theorem deepseek_tokenizer_key_and_local_codec
    (self : DeepSeekCompletionModelProvider) (cache : TokenizerCache)
    (nickname n : String) (env : DeepSeekConfigureEnv)
    (c : IDeepSeekCompletionModelConfig)
    (tokenizer : Tokenizer) (text : String) (tokens : List Int)
    (hset : ConfigureEffect.storeSet n c ∈
      (DeepSeekCompletionModelProvider.configure nickname env).1) :
    DeepSeekCompletionModelProvider.init self cache =
      cache self.config.model ∧
    c.model = "deepseek-chat" ∧
    DeepSeekCompletionModelProvider.encode tokenizer text =
      ([], tokenizer.encodeFn text false) ∧
    DeepSeekCompletionModelProvider.decode tokenizer tokens =
      ([], tokenizer.decodeFn tokens false) := by
  refine ⟨rfl, ?_, rfl, rfl⟩
  unfold DeepSeekCompletionModelProvider.configure at hset
  rcases hak : env.apiKeyInput with _ | apiKeyRaw
  · simp [hak] at hset
  rcases hurl : env.baseUrlInput with _ | baseUrlRaw
  · simp [hak, hurl] at hset
  rcases hp : env.probeOk
  · simp [hak, hurl, hp] at hset
  rcases hmd : env.metadata "deepseek-chat" with _ | metadata
  · simp [hak, hurl, hp, hmd] at hset
  · simp [hak, hurl, hp, hmd] at hset
    obtain ⟨-, rfl⟩ := hset
    rfl

/-- Witness for C3 (amended): a successful `configure` run for nickname
`"my-deepseek"` persists a config whose `model` is `"deepseek-chat"`. -/
theorem deepseek_tokenizer_key_and_local_codec_witness :
    ConfigureEffect.storeSet "my-deepseek"
      ({ contextWindow := 65536,
         baseUrl := "https://api.deepseek.com/beta".trim,
         apiKey := "sk-key".trim, model := "deepseek-chat",
         nickname := "my-deepseek", providerId := "deepseek-completion" } :
        IDeepSeekCompletionModelConfig) ∈
      (DeepSeekCompletionModelProvider.configure "my-deepseek"
        { apiKeyInput := some "sk-key",
          baseUrlInput := some "https://api.deepseek.com/beta",
          probeOk := true,
          metadata := fun _ => some { contextWindow := 65536 } }).1 ∧
    ({ contextWindow := 65536,
       baseUrl := "https://api.deepseek.com/beta".trim,
       apiKey := "sk-key".trim, model := "deepseek-chat",
       nickname := "my-deepseek", providerId := "deepseek-completion" } :
      IDeepSeekCompletionModelConfig).model = "deepseek-chat" := by
  have hmem : ConfigureEffect.storeSet "my-deepseek"
      ({ contextWindow := 65536,
         baseUrl := "https://api.deepseek.com/beta".trim,
         apiKey := "sk-key".trim, model := "deepseek-chat",
         nickname := "my-deepseek", providerId := "deepseek-completion" } :
        IDeepSeekCompletionModelConfig) ∈
      (DeepSeekCompletionModelProvider.configure "my-deepseek"
        { apiKeyInput := some "sk-key",
          baseUrlInput := some "https://api.deepseek.com/beta",
          probeOk := true,
          metadata := fun _ => some { contextWindow := 65536 } }).1 := by
    simp only [DeepSeekCompletionModelProvider.configure]
    exact List.mem_cons_of_mem _ (List.mem_singleton.mpr rfl)
  refine ⟨hmem, ?_⟩
  exact (deepseek_tokenizer_key_and_local_codec
    ⟨{ nickname := "my-deepseek", providerId := "deepseek-completion",
       model := "deepseek-chat", contextWindow := 65536,
       baseUrl := "https://api.deepseek.com/beta", apiKey := "sk-key" }⟩
    (fun _ => { encodeFn := fun _ _ => [], decodeFn := fun _ _ => "" })
    "my-deepseek" "my-deepseek"
    { apiKeyInput := some "sk-key",
      baseUrlInput := some "https://api.deepseek.com/beta",
      probeOk := true,
      metadata := fun _ => some { contextWindow := 65536 } }
    { contextWindow := 65536,
      baseUrl := "https://api.deepseek.com/beta".trim,
      apiKey := "sk-key".trim, model := "deepseek-chat",
      nickname := "my-deepseek", providerId := "deepseek-completion" }
    { encodeFn := fun _ _ => [], decodeFn := fun _ _ => "" }
    "" [] hmem).2.1

/-- C7: an Ollama `configure` run whose fetched `/api/tags` model list
contains zero catalog-recognized models fails with the
`No models found for the given configuration` error and records no effect
at all — in particular no Configuration Store `set` call, so storage is
unchanged. -/
theorem ollama_configure_no_recognized_models
    (nickname : String) (env : OllamaConfigureEnv) (u : String)
    (hurl : env.baseUrlInput = some u)
    (htags : env.tagsResponse.ok = true)
    (hfilter : ollamaModelPickUpItems env.metadata
      (env.tagsResponse.body.models.getD []) = []) :
    OllamaCompletionModelProvider.configure nickname env =
      ([], Except.error (ConfigureError.noModelsFound
        "No models found for the given configuration")) := by
  unfold OllamaCompletionModelProvider.configure
  rw [hurl]
  simp [htags, hfilter]

/-- Witness for C7: a `/api/tags` answer listing one model the catalog does
not recognize. -/
theorem ollama_configure_no_recognized_models_witness :
    OllamaCompletionModelProvider.configure "my-ollama"
      { baseUrlInput := some "http://localhost:11434",
        tagsResponse :=
          { status := 200, statusText := "OK", bodyText := "",
            body := { models := some [{ name := "unknown-model" }] } },
        metadata := fun _ => none,
        quickPick := fun _ => none,
        probeResponse :=
          { status := 200, statusText := "OK", bodyText := "",
            body := () } } =
      ([], Except.error (ConfigureError.noModelsFound
        "No models found for the given configuration")) :=
  ollama_configure_no_recognized_models "my-ollama"
    { baseUrlInput := some "http://localhost:11434",
      tagsResponse :=
        { status := 200, statusText := "OK", bodyText := "",
          body := { models := some [{ name := "unknown-model" }] } },
      metadata := fun _ => none,
      quickPick := fun _ => none,
      probeResponse :=
        { status := 200, statusText := "OK", bodyText := "",
          body := () } }
    "http://localhost:11434" rfl rfl rfl

/-- C8: every adapter threads the caller-supplied cancellation signal into
the backend request it issues (each issued request carries exactly
`options.signal`), and `invoke` called with an already-aborted signal
resolves to the cancellation error with an empty backend request trace —
no request reaches the backend, hence no observable side effect on the
backend state machine. -/
theorem invoke_cancellation_contract
    (selfL : LlamaCppCompletionModelProvider)
    (selfD : DeepSeekCompletionModelProvider)
    (selfO : OllamaCompletionModelProvider)
    (options : ICompletionModelInvokeOptions) (messages : FimMessages)
    (hmsg : options.messages = some messages)
    (backL : LlamaCppInfillBody → HttpResponse LlamaCppInfillResponse)
    (sdkD : DeepSeekCompletionBody → DeepSeekSdkOutcome)
    (backO : OllamaGenerateBody → HttpResponse OllamaGenerateResponse) :
    (options.signal.aborted = true →
      LlamaCppCompletionModelProvider.invoke selfL options backL =
        ([], Except.error InvokeError.cancelled) ∧
      DeepSeekCompletionModelProvider.invoke selfD options sdkD =
        ([], Except.error InvokeError.cancelled) ∧
      OllamaCompletionModelProvider.invoke selfO options backO =
        ([], Except.error InvokeError.cancelled)) ∧
    ((∀ r ∈ (LlamaCppCompletionModelProvider.invoke
        selfL options backL).1, r.signal = options.signal) ∧
      (∀ r ∈ (DeepSeekCompletionModelProvider.invoke
        selfD options sdkD).1, r.signal = options.signal) ∧
      (∀ r ∈ (OllamaCompletionModelProvider.invoke
        selfO options backO).1, r.signal = options.signal)) := by
  constructor
  · intro habort
    refine ⟨?_, ?_, ?_⟩
    · simp [LlamaCppCompletionModelProvider.invoke, habort]
    · simp [DeepSeekCompletionModelProvider.invoke, hmsg, habort]
    · simp [OllamaCompletionModelProvider.invoke, hmsg, habort]
  · refine ⟨?_, ?_, ?_⟩
    · intro r hr
      rcases habort : options.signal.aborted
      · have htrace : (LlamaCppCompletionModelProvider.invoke
            selfL options backL).1 =
            [{ url := selfL.config.baseUrl ++ "/infill",
               body := LlamaCppCompletionModelProvider.infillBody options,
               signal := options.signal }] := by
          simp only [LlamaCppCompletionModelProvider.invoke, habort,
            Bool.false_eq_true, if_false]
          split <;> rfl
        rw [htrace] at hr
        simp only [List.mem_singleton] at hr
        rw [hr]
      · have htrace : (LlamaCppCompletionModelProvider.invoke
            selfL options backL).1 = [] := by
          simp [LlamaCppCompletionModelProvider.invoke, habort]
        rw [htrace] at hr
        simp at hr
    · intro r hr
      rcases habort : options.signal.aborted
      · have htrace : (DeepSeekCompletionModelProvider.invoke
            selfD options sdkD).1 =
            [{ baseUrl := selfD.config.baseUrl,
               apiKey := selfD.config.apiKey,
               body := DeepSeekCompletionModelProvider.completionBody
                 selfD messages options,
               signal := options.signal }] := by
          simp only [DeepSeekCompletionModelProvider.invoke, hmsg, habort,
            Bool.false_eq_true, if_false]
          split <;> rfl
        rw [htrace] at hr
        simp only [List.mem_singleton] at hr
        rw [hr]
      · have htrace : (DeepSeekCompletionModelProvider.invoke
            selfD options sdkD).1 = [] := by
          simp [DeepSeekCompletionModelProvider.invoke, hmsg, habort]
        rw [htrace] at hr
        simp at hr
    · intro r hr
      rcases habort : options.signal.aborted
      · have htrace : (OllamaCompletionModelProvider.invoke
            selfO options backO).1 =
            [{ url := selfO.config.baseUrl ++ "/api/generate",
               body := OllamaCompletionModelProvider.generateBody
                 selfO messages options,
               signal := options.signal }] := by
          simp only [OllamaCompletionModelProvider.invoke, hmsg, habort,
            Bool.false_eq_true, if_false]
          split <;> rfl
        rw [htrace] at hr
        simp only [List.mem_singleton] at hr
        rw [hr]
      · have htrace : (OllamaCompletionModelProvider.invoke
            selfO options backO).1 = [] := by
          simp [OllamaCompletionModelProvider.invoke, hmsg, habort]
        rw [htrace] at hr
        simp at hr

/-- Witness for C8: with an already-aborted signal, each adapter resolves
to the cancellation error and its backend trace is empty. -/
theorem invoke_cancellation_contract_witness :
    LlamaCppCompletionModelProvider.invoke
      ⟨{ nickname := "l", providerId := "llama.cpp-completion", model := "",
         contextWindow := 32768, baseUrl := "http://localhost:8012" }⟩
      { messages := some { prefixStr := some "x", suffixStr := some "" },
        maxTokens := some 1, stop := some [], temperature := none,
        signal := { aborted := true } }
      (fun _ => { status := 200, statusText := "OK", bodyText := "",
                  body := { content := some "y", truncated := none } }) =
      ([], Except.error InvokeError.cancelled) := by
  have h := invoke_cancellation_contract
    ⟨{ nickname := "l", providerId := "llama.cpp-completion", model := "",
       contextWindow := 32768, baseUrl := "http://localhost:8012" }⟩
    ⟨{ nickname := "d", providerId := "deepseek-completion",
       model := "deepseek-chat", contextWindow := 65536,
       baseUrl := "https://api.deepseek.com/beta", apiKey := "k" }⟩
    ⟨{ nickname := "o", providerId := "ollama-completion",
       model := "qwen2.5-coder", contextWindow := 4096,
       baseUrl := "http://localhost:11434" }⟩
    { messages := some { prefixStr := some "x", suffixStr := some "" },
      maxTokens := some 1, stop := some [], temperature := none,
      signal := { aborted := true } }
    { prefixStr := some "x", suffixStr := some "" }
    rfl
    (fun _ => { status := 200, statusText := "OK", bodyText := "",
                body := { content := some "y", truncated := none } })
    (fun _ => DeepSeekSdkOutcome.success { choices := some [] })
    (fun _ => { status := 200, statusText := "OK", bodyText := "",
                body := { response := some "", eval_count := none,
                          eval_duration := none } })
  exact (h.1 rfl).1
